import Mathlib

/-!
Shallow embedding of the Group-Work Task Manager core
(src/core/models.py and src/core/views.py).

Conventions of the embedding:
* MongoDB ObjectIds are modelled as `Nat`; `str(x.id)` comparisons in the
  Python source become `Nat` equality.  Fresh ids are drawn from a `nextId`
  counter in the database state.
* Each MongoEngine collection is a `List` of documents in insertion order;
  `objects(...).first()` is `List.find?`, `objects(...).all()` is
  `List.filter`, and `document.save()` on a fetched document is an in-place
  update of the first matching list entry (`updateFirst`).
* bcrypt is an external dependency; it is modelled by a deterministic
  injective tagging function, which is all the source relies on
  (`hashpw` then `checkpw` round-trips).
* The PDF generators (`generate_member_pdf`,
  `generate_compiled_pdf_from_text` from `core/pdf_utils`, outside the core
  logic) are fallible external calls; each view that uses one takes its
  outcome as an `Option String` parameter (`some relativePath` on success,
  `none` on failure), matching the truthiness test the views perform.
* Timestamp fields (`created_at`, `submitted_at`, `compiled_at`) and the
  submission `status` field are omitted: no verified property mentions them.
* Views are modelled on their authenticated POST path with a valid form,
  i.e. after `@login_required` and form validation have passed; the form's
  cleaned fields are the function's arguments.
-/

/-- Update the first element of a list satisfying `p` (the document that
`objects(...).first()` returned and `save()` wrote back); all other
elements are unchanged. -/
def updateFirst (p : α → Bool) (f : α → α) : List α → List α
  | [] => []
  | a :: as => if p a then f a :: as else a :: updateFirst p f as

/-- Model of `bcrypt.hashpw`: an injective tag of the password. -/
def bcrypt.hashpw (password : String) : String :=
  "bcrypt$" ++ password

/-- Model of `bcrypt.checkpw`: the stored hash matches the hash of the
candidate password. -/
def bcrypt.checkpw (password storedHash : String) : Bool :=
  storedHash == bcrypt.hashpw password

/-- `UserModel` document (models.py lines 5-20). -/
structure UserDoc where
  id : Nat
  email : String
  passwordHash : String
  role : String
deriving DecidableEq

/-- `ClassModel` document (models.py lines 53-63). -/
structure ClassDoc where
  id : Nat
  name : String
  passwordHash : String
  lecturer : Nat
  members : List Nat
deriving DecidableEq

/-- `GroupModel` document (models.py lines 108-120). -/
structure GroupDoc where
  id : Nat
  name : String
  passwordHash : String
  classId : Nat
  leader : Nat
  members : List Nat
  whitelistEmails : List String
deriving DecidableEq

/-- One entry of `TaskModel.divisions`: a dict with keys member_id and
part_description (models.py line 192). -/
structure Division where
  memberId : Nat
  partDescription : String
deriving DecidableEq

/-- `TaskModel` document (models.py lines 181-194); `description`,
`file_path` and `due_date` are carried but unused by the verified views. -/
structure TaskDoc where
  id : Nat
  classId : Nat
  lecturer : Nat
  title : String
  divisions : List Division
deriving DecidableEq

/-- `SubmissionModel` document (models.py lines 228-240). -/
structure SubmissionDoc where
  taskId : Nat
  groupId : Nat
  memberId : Nat
  textAnswer : String
  pdfPath : String
deriving DecidableEq

/-- `CompiledSubmissionModel` document (models.py lines 257-266). -/
structure CompiledSubmissionDoc where
  groupId : Nat
  taskId : Nat
  compiledPdfPath : String
deriving DecidableEq

/-- The six MongoDB collections plus a fresh-id counter. -/
structure DB where
  users : List UserDoc
  classes : List ClassDoc
  groups : List GroupDoc
  tasks : List TaskDoc
  submissions : List SubmissionDoc
  compiledSubmissions : List CompiledSubmissionDoc
  nextId : Nat
deriving DecidableEq

/-- `UserModel.get_by_email` (models.py lines 36-38). -/
def UserModel.get_by_email (db : DB) (email : String) : Option UserDoc :=
  db.users.find? (fun u => u.email == email)

/-- `UserModel.get_by_id` (models.py lines 40-42). -/
def UserModel.get_by_id (db : DB) (userId : Nat) : Option UserDoc :=
  db.users.find? (fun u => u.id == userId)

/-- `UserModel.create` (models.py lines 22-27). -/
def UserModel.create (db : DB) (email password role : String) : UserDoc × DB :=
  let u : UserDoc := ⟨db.nextId, email, bcrypt.hashpw password, role⟩
  (u, { db with users := db.users ++ [u], nextId := db.nextId + 1 })

/-- `UserModel.authenticate` (models.py lines 29-34). -/
def UserModel.authenticate (db : DB) (email password : String) : Option UserDoc :=
  match UserModel.get_by_email db email with
  | some u => if bcrypt.checkpw password u.passwordHash then some u else none
  | none => none

/-- Python class-attribute lookup on `UserModel`: the role constants the
class defines are exactly `ROLE_LECTURER`, `ROLE_LEADER`, `ROLE_MEMBER`
(models.py lines 10-12); any other attribute name raises
`AttributeError`, modelled as `none`. -/
def UserModel.classAttrRole : String → Option String
  | "ROLE_LECTURER" => some "lecturer"
  | "ROLE_LEADER" => some "leader"
  | "ROLE_MEMBER" => some "member"
  | _ => none

/-- `ClassModel.get_by_name` (models.py lines 80-82). -/
def ClassModel.get_by_name (db : DB) (name : String) : Option ClassDoc :=
  db.classes.find? (fun c => c.name == name)

/-- `ClassModel.verify_password` (models.py lines 84-89). -/
def ClassModel.verify_password (db : DB) (className password : String) : Bool :=
  match ClassModel.get_by_name db className with
  | some c => bcrypt.checkpw password c.passwordHash
  | none => false

/-- `ClassModel.add_leader` (models.py lines 91-101): despite its name it
adds the user to the class's `members` list if not already present;
returns `False` when class or user does not resolve. -/
def ClassModel.add_leader (db : DB) (classId userId : Nat) : Bool × DB :=
  match db.classes.find? (fun c => c.id == classId), UserModel.get_by_id db userId with
  | some c, some _ =>
    if userId ∈ c.members then (true, db)
    else
      let classes' :=
        updateFirst (fun x => x.id == classId)
          (fun x => { x with members := x.members ++ [userId] }) db.classes
      (true, { db with classes := classes' })
  | _, _ => (false, db)

/-- `GroupModel.get_by_id` (models.py lines 129-131). -/
def GroupModel.get_by_id (db : DB) (groupId : Nat) : Option GroupDoc :=
  db.groups.find? (fun g => g.id == groupId)

/-- `GroupModel.create` (models.py lines 122-127): the creator is stored as
`leader` and is the single element of `members`. -/
def GroupModel.create (db : DB) (classId leaderId : Nat) (name password : String) :
    GroupDoc × DB :=
  let g : GroupDoc :=
    ⟨db.nextId, name, bcrypt.hashpw password, classId, leaderId, [leaderId], []⟩
  (g, { db with groups := db.groups ++ [g], nextId := db.nextId + 1 })

/-- `GroupModel.get_by_member` (models.py lines 141-143). -/
def GroupModel.get_by_member (db : DB) (memberId : Nat) : List GroupDoc :=
  db.groups.filter (fun g => memberId ∈ g.members)

/-- `GroupModel.add_member` (models.py lines 152-160): appends the user to
the group's member list when group and user resolve and the user is not
already a member. -/
def GroupModel.add_member (db : DB) (groupId memberId : Nat) : Bool × DB :=
  match GroupModel.get_by_id db groupId, UserModel.get_by_id db memberId with
  | some g, some _ =>
    if memberId ∈ g.members then (false, db)
    else
      let groups' :=
        updateFirst (fun x => x.id == groupId)
          (fun x => { x with members := x.members ++ [memberId] }) db.groups
      (true, { db with groups := groups' })
  | _, _ => (false, db)

/-- `TaskModel.get_by_id` (models.py lines 209-211). -/
def TaskModel.get_by_id (db : DB) (taskId : Nat) : Option TaskDoc :=
  db.tasks.find? (fun t => t.id == taskId)

/-- The list mutation inside `TaskModel.add_division` (models.py lines
221-223): drop every existing division of this member, then append the
new one. -/
def addDivisionList (divs : List Division) (memberId : Nat) (desc : String) :
    List Division :=
  (divs.filter (fun d => d.memberId != memberId)) ++ [⟨memberId, desc⟩]

/-- `TaskModel.add_division` (models.py lines 217-226). -/
def TaskModel.add_division (db : DB) (taskId memberId : Nat) (desc : String) :
    Bool × DB :=
  match TaskModel.get_by_id db taskId with
  | some _ =>
    let tasks' :=
      updateFirst (fun t => t.id == taskId)
        (fun t => { t with divisions := addDivisionList t.divisions memberId desc })
        db.tasks
    (true, { db with tasks := tasks' })
  | none => (false, db)

/-- `SubmissionModel.get_by_task_and_member` (models.py lines 249-251). -/
def SubmissionModel.get_by_task_and_member (db : DB) (taskId memberId : Nat) :
    Option SubmissionDoc :=
  db.submissions.find? (fun s => s.taskId == taskId && s.memberId == memberId)

/-- `SubmissionModel.create` (models.py lines 242-247). -/
def SubmissionModel.create (db : DB) (taskId groupId memberId : Nat)
    (textAnswer pdfPath : String) : DB :=
  { db with submissions := db.submissions ++ [⟨taskId, groupId, memberId, textAnswer, pdfPath⟩] }

/-- `CompiledSubmissionModel.get_by_task_and_group` (models.py lines 274-276). -/
def CompiledSubmissionModel.get_by_task_and_group (db : DB) (taskId groupId : Nat) :
    Option CompiledSubmissionDoc :=
  db.compiledSubmissions.find? (fun c => c.taskId == taskId && c.groupId == groupId)

/-- `CompiledSubmissionModel.create` (models.py lines 268-272). -/
def CompiledSubmissionModel.create (db : DB) (groupId taskId : Nat) (path : String) : DB :=
  { db with compiledSubmissions := db.compiledSubmissions ++ [⟨groupId, taskId, path⟩] }

/-! ### View layer (src/core/views.py) -/

/-- Session data written on successful login (views.py lines 46-48). -/
structure Session where
  userId : Nat
  userEmail : String
  userRole : String
deriving DecidableEq

/-- Outcome of `login_view`'s POST branch. -/
inductive LoginResult
  | success (s : Session)
  | roleMismatch (storedRole selectedRole : String)
  | invalidCredentials
deriving DecidableEq

/-- `login_view` (views.py lines 29-58), POST path with a valid form: the
credentials must authenticate and the stored role must equal the role
selected on the form before a session is written. -/
def login_view (db : DB) (email password selectedRole : String) : LoginResult :=
  match UserModel.authenticate db email password with
  | some user =>
    if user.role == selectedRole then .success ⟨user.id, user.email, user.role⟩
    else .roleMismatch user.role selectedRole
  | none => .invalidCredentials

/-- Outcome of `register_view`'s POST branch. -/
inductive RegisterResult
  | emailTaken
  | attributeFault (missingAttr : String)
  | success (u : UserDoc)
deriving DecidableEq

/-- `register_view` (views.py lines 60-87), POST path with a valid form:
after the duplicate-email pre-check, the handler evaluates
`UserModel.ROLE_STUDENT` (views.py line 75) through Python attribute
lookup (`UserModel.classAttrRole`); an undefined attribute aborts the
handler before `UserModel.create` runs. -/
def register_view (db : DB) (email password : String) : RegisterResult × DB :=
  if (UserModel.get_by_email db email).isSome then (.emailTaken, db)
  else
    match UserModel.classAttrRole "ROLE_STUDENT" with
    | none => (.attributeFault "ROLE_STUDENT", db)
    | some role =>
      let (u, db') := UserModel.create db email password role
      (.success u, db')

/-- Outcome of `join_class_view`'s POST branch. -/
inductive JoinClassResult
  | notFound
  | invalidCredential
  | ok
deriving DecidableEq

/-- `join_class_view` (views.py lines 566-590), POST path with a valid
form: class lookup by name, then password verification, then
`ClassModel.add_leader`; the view reports success regardless of
`add_leader`'s boolean result. -/
def join_class_view (db : DB) (userId : Nat) (className password : String) :
    JoinClassResult × DB :=
  match ClassModel.get_by_name db className with
  | none => (.notFound, db)
  | some classObj =>
    if ClassModel.verify_password db className password = false then
      (.invalidCredential, db)
    else
      let (_, db') := ClassModel.add_leader db classObj.id userId
      (.ok, db')

/-- Outcome of `accept_group_invitation`. -/
inductive AcceptResult
  | notFound
  | notWhitelisted
  | alreadyMember
  | ok
deriving DecidableEq

/-- `accept_group_invitation` (views.py lines 592-616): group existence,
whitelist membership of the session email, then membership check, then
`GroupModel.add_member`. -/
def accept_group_invitation (db : DB) (userId : Nat) (userEmail : String)
    (groupId : Nat) : AcceptResult × DB :=
  match GroupModel.get_by_id db groupId with
  | none => (.notFound, db)
  | some group =>
    if userEmail ∉ group.whitelistEmails then (.notWhitelisted, db)
    else if userId ∈ group.members then (.alreadyMember, db)
    else
      let (_, db') := GroupModel.add_member db groupId userId
      (.ok, db')

/-- `create_group` (views.py lines 541-564), POST path with a valid form:
the view only calls `GroupModel.create` with the session user as leader;
it performs no role mutation. -/
def create_group (db : DB) (userId classId : Nat) (name password : String) :
    GroupDoc × DB :=
  GroupModel.create db classId userId name password

/-- Outcome of `divide_task`'s POST branch. -/
inductive DivideResult
  | unauthorized
  | taskNotFound
  | ok
deriving DecidableEq

/-- `request.POST.get` over the form fields `part_<member_id>`, modelled
as first lookup in an association list. -/
def postGet (post : List (Nat × String)) (memberId : Nat) : Option String :=
  (post.find? (fun p => p.1 == memberId)).map (fun p => p.2)

/-- Python whitespace test used by `str.strip()`. -/
def pyIsSpace (c : Char) : Bool :=
  c == ' ' || c == '\t' || c == '\n' || c == '\r' || c == '\x0b' || c == '\x0c'

/-- Python `str.strip()`: drop leading and trailing whitespace (defined on
the character list so it evaluates inside the kernel). -/
def pyStrip (s : String) : String :=
  String.mk (((s.data.dropWhile pyIsSpace).reverse.dropWhile pyIsSpace).reverse)

/-- `divide_task` (views.py lines 705-742), POST path: the caller must be
the leader of the group named by `groupId` and the task must exist; then
for each existing member of the group, a non-blank posted part
description is written through `TaskModel.add_division`.  The group's
class is never compared with the task's class. -/
def divide_task (db : DB) (userId groupId taskId : Nat)
    (post : List (Nat × String)) : DivideResult × DB :=
  match GroupModel.get_by_id db groupId with
  | none => (.unauthorized, db)
  | some group =>
    if group.leader ≠ userId then (.unauthorized, db)
    else match TaskModel.get_by_id db taskId with
      | none => (.taskNotFound, db)
      | some _ =>
        let members := group.members.filter (fun m => (UserModel.get_by_id db m).isSome)
        let db' := members.foldl (fun acc m =>
          match postGet post m with
          | some desc =>
            if pyStrip desc ≠ "" then (TaskModel.add_division acc taskId m desc).2 else acc
          | none => acc) db
        (.ok, db')

/-- Outcome of `compile_submission`'s POST branch. -/
inductive CompileResult
  | unauthorized
  | taskNotFound
  | emptyText
  | pdfFailed
  | updated
  | created
deriving DecidableEq

/-- `compile_submission` (views.py lines 744-803), POST path: leader-only,
task must exist, curated text must be non-blank; the external PDF
generator's outcome is the `pdfResult` parameter (`some relativePath` on
success).  Only after generation succeeds is the CompiledSubmission
updated in place or created; the stored reference is
`/media/<relativePath>` (views.py lines 782-794). -/
def compile_submission (db : DB) (userId groupId taskId : Nat)
    (compiledTextContent : String) (pdfResult : Option String) :
    CompileResult × DB :=
  match GroupModel.get_by_id db groupId with
  | none => (.unauthorized, db)
  | some group =>
    if group.leader ≠ userId then (.unauthorized, db)
    else match TaskModel.get_by_id db taskId with
      | none => (.taskNotFound, db)
      | some _ =>
        if pyStrip compiledTextContent == "" then (.emptyText, db)
        else match pdfResult with
          | none => (.pdfFailed, db)
          | some relativePath =>
            match CompiledSubmissionModel.get_by_task_and_group db taskId groupId with
            | some _ =>
              let compiled' :=
                updateFirst (fun c => c.taskId == taskId && c.groupId == groupId)
                  (fun c => { c with compiledPdfPath := "/media/" ++ relativePath })
                  db.compiledSubmissions
              (.updated, { db with compiledSubmissions := compiled' })
            | none =>
              (.created,
                CompiledSubmissionModel.create db groupId taskId ("/media/" ++ relativePath))

/-- Outcome of `submit_task`'s POST branch. -/
inductive SubmitResult
  | taskNotFound
  | notInGroup
  | pdfFailed
  | updated
  | created
deriving DecidableEq

/-- `submit_task` (views.py lines 806-892), POST path with a valid form:
task lookup, then the first of the caller's groups whose class matches
the task's class, then the PDF generator (outcome `pdfResult`); on
success an existing (task, member) Submission is updated in place,
otherwise a new one is created (views.py lines 830-866). -/
def submit_task (db : DB) (userId : Nat) (userEmail : String) (taskId : Nat)
    (textAnswer : String) (pdfResult : Option String) : SubmitResult × DB :=
  match TaskModel.get_by_id db taskId with
  | none => (.taskNotFound, db)
  | some task =>
    match (GroupModel.get_by_member db userId).find? (fun g => g.classId == task.classId) with
    | none => (.notInGroup, db)
    | some userGroup =>
      match pdfResult with
      | none => (.pdfFailed, db)
      | some relativePath =>
        match SubmissionModel.get_by_task_and_member db taskId userId with
        | some _ =>
          let subs' :=
            updateFirst (fun s => s.taskId == taskId && s.memberId == userId)
              (fun s => { s with textAnswer := textAnswer,
                                 pdfPath := "/media/" ++ relativePath })
              db.submissions
          (.updated, { db with submissions := subs' })
        | none =>
          (.created,
            SubmissionModel.create db taskId userGroup.id userId textAnswer
              ("/media/" ++ relativePath))

/-! ### Lemmas about the storage-layer primitives -/

theorem updateFirst_find?_of_pres {α : Type} (p : α → Bool) (f : α → α)
    (h : ∀ a, p a = true → p (f a) = true) :
    ∀ l : List α, (updateFirst p f l).find? p = (l.find? p).map f := by
  intro l
  induction l with
  | nil => rfl
  | cons a as ih =>
    cases hp : p a with
    | true =>
      simp [updateFirst, hp, List.find?_cons_of_pos, h a hp]
    | false =>
      simp only [updateFirst, hp, Bool.false_eq_true, if_false]
      rw [List.find?_cons_of_neg _ (by simp [hp]), List.find?_cons_of_neg _ (by simp [hp]), ih]

theorem updateFirst_countP {α : Type} (p q : α → Bool) (f : α → α)
    (h : ∀ a, q (f a) = q a) :
    ∀ l : List α, (updateFirst p f l).countP q = l.countP q := by
  intro l
  induction l with
  | nil => rfl
  | cons a as ih =>
    cases hp : p a with
    | true => simp [updateFirst, hp, List.countP_cons, h a]
    | false => simp [updateFirst, hp, List.countP_cons, ih]

theorem countP_eq_zero_of_find?_eq_none {α : Type} {p : α → Bool} {l : List α}
    (h : l.find? p = none) : l.countP p = 0 :=
  List.countP_eq_zero.mpr (by simpa using List.find?_eq_none.mp h)

theorem one_le_countP_of_find?_eq_some {α : Type} {p : α → Bool} {l : List α} {a : α}
    (h : l.find? p = some a) : 1 ≤ l.countP p :=
  List.countP_pos_iff.mpr ⟨a, List.mem_of_find?_eq_some h, List.find?_some h⟩

/-! ### Concrete database fixtures used by witnesses and counterexamples -/

/-- Fixture for C10: one registered member account. -/
def dbC10 : DB :=
  ⟨[⟨1, "alice@x.com", bcrypt.hashpw "pw10", "member"⟩], [], [], [], [], [], 2⟩

/-- Fixture for C9: empty database. -/
def dbC9 : DB := ⟨[], [], [], [], [], [], 1⟩

/-- Fixture for C4: a member-role student who belongs to class 2. -/
def dbC4 : DB :=
  ⟨[⟨1, "student1@test.com", bcrypt.hashpw "pass123", "member"⟩],
   [⟨2, "AI101", bcrypt.hashpw "ai101pass", 9, [1]⟩], [], [], [], [], 3⟩

/-- Fixture for C1: user 1 leads group 4 in class 2, while task 5 belongs
to the different class 3; user 1 leads no group in class 3. -/
def dbC1 : DB :=
  ⟨[⟨1, "lead@x.com", bcrypt.hashpw "pw1", "member"⟩],
   [⟨2, "ClassA", bcrypt.hashpw "ca", 9, [1]⟩,
    ⟨3, "ClassB", bcrypt.hashpw "cb", 9, []⟩],
   [⟨4, "GroupG", bcrypt.hashpw "gp", 2, 1, [1], []⟩],
   [⟨5, 3, 9, "TaskT", []⟩], [], [], 6⟩

/-! ### Claim C10 -/

/-- C10: the login POST path succeeds (establishes a session) exactly when
the credentials authenticate and the role selected on the form equals the
stored account role; a correct credential with a different selected role
yields the role-mismatch outcome instead of a session. -/
theorem claim10_login_requires_matching_role (db : DB)
    (email password selectedRole : String) :
    ((∃ s, login_view db email password selectedRole = .success s) ↔
      (∃ u, UserModel.authenticate db email password = some u ∧
        u.role = selectedRole)) ∧
    (∀ u, UserModel.authenticate db email password = some u →
      u.role ≠ selectedRole →
      login_view db email password selectedRole =
        .roleMismatch u.role selectedRole) := by
  constructor
  · constructor
    · rintro ⟨s, hs⟩
      unfold login_view at hs
      cases h : UserModel.authenticate db email password with
      | none => simp [h] at hs
      | some u =>
        rw [h] at hs
        by_cases hr : u.role = selectedRole
        · exact ⟨u, rfl, hr⟩
        · simp [hr] at hs
    · rintro ⟨u, hu, hr⟩
      exact ⟨⟨u.id, u.email, u.role⟩, by simp [login_view, hu, hr]⟩
  · intro u hu hr
    simp [login_view, hu, hr]

/-- Witness for C10 at a concrete database. -/
theorem claim10_witness :
    ∃ s, login_view dbC10 "alice@x.com" "pw10" "member" = .success s :=
  (claim10_login_requires_matching_role dbC10 "alice@x.com" "pw10" "member").1.mpr
    ⟨⟨1, "alice@x.com", bcrypt.hashpw "pw10", "member"⟩, by decide, rfl⟩

/-! ### Claim C9 -/

/-- C9: the registration POST path can never create an account: when the
email is free, the handler's account-creation branch evaluates the
undefined class attribute `UserModel.ROLE_STUDENT` and aborts; in every
case the user collection is left unchanged and no success outcome occurs. -/
theorem claim9_register_never_creates (db : DB) (email password : String) :
    (UserModel.get_by_email db email = none →
      register_view db email password = (.attributeFault "ROLE_STUDENT", db)) ∧
    (register_view db email password).2 = db ∧
    (∀ u, (register_view db email password).1 ≠ .success u) := by
  have hattr : UserModel.classAttrRole "ROLE_STUDENT" = none := by decide
  cases hget : UserModel.get_by_email db email with
  | some u => simp [register_view, hget, hattr]
  | none => simp [register_view, hget, hattr]

/-- Witness for C9: a fresh email on an empty database. -/
theorem claim9_witness :
    register_view dbC9 "new@x.com" "hunter2" = (.attributeFault "ROLE_STUDENT", dbC9) :=
  (claim9_register_never_creates dbC9 "new@x.com" "hunter2").1 (by decide)

/-! ### Claim C4 -/

/-- C4: evaluation at the failing input.  A student whose stored role is
the generic registrant role `member` creates a group: the group is
recorded with the student as leader and sole member, but the user
collection — and hence the stored role — is left untouched, so the
promotion to `leader` claimed by the spec (and stated in the repository's
own seed script) never happens in this code path. -/
theorem claim4_group_created_but_role_not_promoted :
    (create_group dbC4 1 2 "Group Alpha" "alphapass").1.leader = 1 ∧
    (create_group dbC4 1 2 "Group Alpha" "alphapass").1.members = [1] ∧
    ((create_group dbC4 1 2 "Group Alpha" "alphapass").2.users.find?
      (fun u => u.id == 1)).map (fun u => u.role) = some "member" ∧
    (create_group dbC4 1 2 "Group Alpha" "alphapass").2.users = dbC4.users := by
  decide

/-! ### Claim C6 -/

/-- C6: when the external artifact-generation step fails (`none`), neither
`submit_task` nor `compile_submission` commits any write — the returned
state is exactly the prior state — and neither reports a success outcome. -/
theorem claim6_generation_failure_commits_nothing (db : DB)
    (userId groupId taskId : Nat) (userEmail textAnswer compiledText : String) :
    (submit_task db userId userEmail taskId textAnswer none).2 = db ∧
    (submit_task db userId userEmail taskId textAnswer none).1 ≠ .updated ∧
    (submit_task db userId userEmail taskId textAnswer none).1 ≠ .created ∧
    (compile_submission db userId groupId taskId compiledText none).2 = db ∧
    (compile_submission db userId groupId taskId compiledText none).1 ≠ .updated ∧
    (compile_submission db userId groupId taskId compiledText none).1 ≠ .created := by
  unfold submit_task compile_submission
  refine ⟨?_, ?_, ?_, ?_, ?_, ?_⟩ <;> (repeat' split) <;> simp_all

/-- Witness for C6 at a concrete database (reuses the C1 fixture, whose
group 4 is led by user 1 and whose task 5 exists). -/
theorem claim6_witness :
    (submit_task dbC1 1 "lead@x.com" 5 "my answer" none).2 = dbC1 ∧
    (compile_submission dbC1 1 4 5 "curated text" none).2 = dbC1 :=
  ⟨(claim6_generation_failure_commits_nothing dbC1 1 4 5 "lead@x.com" "my answer"
      "curated text").1,
   (claim6_generation_failure_commits_nothing dbC1 1 4 5 "lead@x.com" "my answer"
      "curated text").2.2.2.1⟩

/-! ### Claim C1 -/

/-- Counterexample to C1: user 1 is the leader of group 4, whose class is
2, while task 5 belongs to class 3; user 1 leads no group in class 3, yet
`divide_task` succeeds and records a division on task 5, contradicting the
claimed cross-entity (group class = task class) authorization. -/
theorem claim1_counterexample :
    (divide_task dbC1 1 4 5 [(1, "part one")]).1 = .ok ∧
    TaskModel.get_by_id (divide_task dbC1 1 4 5 [(1, "part one")]).2 5 =
      some ⟨5, 3, 9, "TaskT", [⟨1, "part one"⟩]⟩ ∧
    (∀ g ∈ dbC1.groups, g.leader = 1 → g.classId ≠ 3) := by
  decide

/-- C1 (amended): `divide_task` authorizes only on leadership of the named
group: when the group is missing or the caller is not its leader the
outcome is Unauthorized and the state is unchanged (no division written);
every call that reaches the success outcome was made by the named group's
leader.  The group's class is never compared with the task's class. -/
theorem claim1_leader_only_authorization (db : DB) (userId groupId taskId : Nat)
    (post : List (Nat × String)) :
    (GroupModel.get_by_id db groupId = none →
      divide_task db userId groupId taskId post = (.unauthorized, db)) ∧
    (∀ g, GroupModel.get_by_id db groupId = some g → g.leader ≠ userId →
      divide_task db userId groupId taskId post = (.unauthorized, db)) ∧
    ((divide_task db userId groupId taskId post).1 = .ok →
      ∃ g, GroupModel.get_by_id db groupId = some g ∧ g.leader = userId) := by
  refine ⟨?_, ?_, ?_⟩
  · intro h
    simp [divide_task, h]
  · intro g hg hl
    simp [divide_task, hg, hl]
  · intro hok
    unfold divide_task at hok
    cases hg : GroupModel.get_by_id db groupId with
    | none => rw [hg] at hok; simp at hok
    | some g =>
      rw [hg] at hok
      by_cases hl : g.leader = userId
      · exact ⟨g, rfl, hl⟩
      · simp [hl] at hok

/-- Witness for the amended C1: a non-leader caller (user 2) on the C1
fixture is rejected with no state change. -/
theorem claim1_witness :
    divide_task dbC1 2 4 5 [(1, "part one")] = (.unauthorized, dbC1) :=
  (claim1_leader_only_authorization dbC1 2 4 5 [(1, "part one")]).2.1
    ⟨4, "GroupG", bcrypt.hashpw "gp", 2, 1, [1], []⟩ (by decide) (by decide)

/-! ### Claim C2 -/

/-- Fixture for C2: group 3 led by user 1; user 2 is whitelisted but not
yet a member. -/
def dbC2 : DB :=
  ⟨[⟨1, "lead2@x.com", bcrypt.hashpw "lp", "leader"⟩,
    ⟨2, "m@x.com", bcrypt.hashpw "mp", "member"⟩],
   [⟨9, "C", bcrypt.hashpw "cp", 8, [1, 2]⟩],
   [⟨3, "G2", bcrypt.hashpw "gp2", 9, 1, [1], ["m@x.com"]⟩],
   [], [], [], 10⟩

/-- C2: `accept_group_invitation` checks its preconditions in order —
missing group, then whitelist, then existing membership (each leaving the
state unchanged) — and on success appends the caller to the member list;
a second identical call reports AlreadyMember, changes nothing, and the
member list holds exactly one occurrence of the caller. -/
theorem claim2_accept_invitation_order_and_idempotence (db : DB)
    (userId : Nat) (userEmail : String) (groupId : Nat) :
    (GroupModel.get_by_id db groupId = none →
      accept_group_invitation db userId userEmail groupId = (.notFound, db)) ∧
    (∀ g, GroupModel.get_by_id db groupId = some g →
      userEmail ∉ g.whitelistEmails →
      accept_group_invitation db userId userEmail groupId = (.notWhitelisted, db)) ∧
    (∀ g, GroupModel.get_by_id db groupId = some g →
      userEmail ∈ g.whitelistEmails → userId ∈ g.members →
      accept_group_invitation db userId userEmail groupId = (.alreadyMember, db)) ∧
    (∀ g u, GroupModel.get_by_id db groupId = some g →
      UserModel.get_by_id db userId = some u →
      userEmail ∈ g.whitelistEmails → userId ∉ g.members →
      (accept_group_invitation db userId userEmail groupId).1 = .ok ∧
      GroupModel.get_by_id (accept_group_invitation db userId userEmail groupId).2
          groupId = some { g with members := g.members ++ [userId] } ∧
      accept_group_invitation (accept_group_invitation db userId userEmail groupId).2
          userId userEmail groupId =
        (.alreadyMember, (accept_group_invitation db userId userEmail groupId).2) ∧
      (GroupModel.get_by_id (accept_group_invitation db userId userEmail groupId).2
          groupId).map (fun x => x.members.count userId) = some 1) := by
  refine ⟨?_, ?_, ?_, ?_⟩
  · intro h
    simp [accept_group_invitation, h]
  · intro g hg hw
    simp [accept_group_invitation, hg, hw]
  · intro g hg hw hm
    simp [accept_group_invitation, hg, hw, hm]
  · intro g u hg hu hw hm
    have hstep : accept_group_invitation db userId userEmail groupId =
        (.ok, (GroupModel.add_member db groupId userId).2) := by
      simp [accept_group_invitation, hg, hw, hm]
    have hgroups : (GroupModel.add_member db groupId userId).2.groups =
        updateFirst (fun x => x.id == groupId)
          (fun x => { x with members := x.members ++ [userId] }) db.groups := by
      unfold GroupModel.add_member
      rw [hg, hu]
      simp [hm]
    have hfind : GroupModel.get_by_id
        (accept_group_invitation db userId userEmail groupId).2 groupId =
        some { g with members := g.members ++ [userId] } := by
      rw [hstep]
      show (GroupModel.add_member db groupId userId).2.groups.find?
        (fun x => x.id == groupId) = _
      rw [hgroups, updateFirst_find?_of_pres (fun x => x.id == groupId)
        (fun x => { x with members := x.members ++ [userId] }) (fun a ha => ha) db.groups]
      rw [show db.groups.find? (fun x => x.id == groupId) = some g from hg]
      rfl
    refine ⟨by rw [hstep], hfind, ?_, ?_⟩
    · generalize hdb1 : (accept_group_invitation db userId userEmail groupId).2 = db1 at hfind ⊢
      simp [accept_group_invitation, hfind, hw]
    · rw [hfind]
      have hcz : g.members.count userId = 0 := List.count_eq_zero.mpr hm
      simp [List.count_append, hcz]

/-- Witness for C2: user 2 (whitelisted, not yet a member) joins group 3
on the C2 fixture; re-acceptance reports AlreadyMember with one stored
occurrence. -/
theorem claim2_witness :
    (accept_group_invitation dbC2 2 "m@x.com" 3).1 = .ok ∧
    (GroupModel.get_by_id (accept_group_invitation dbC2 2 "m@x.com" 3).2 3).map
      (fun x => x.members.count 2) = some 1 := by
  have h := (claim2_accept_invitation_order_and_idempotence dbC2 2 "m@x.com" 3).2.2.2
    ⟨3, "G2", bcrypt.hashpw "gp2", 9, 1, [1], ["m@x.com"]⟩
    ⟨2, "m@x.com", bcrypt.hashpw "mp", "member"⟩
    (by decide) (by decide) (by decide) (by decide)
  exact ⟨h.1, h.2.2.2⟩

/-! ### Claim C7 -/

/-- Fixture for C7: class 2 with password `cpw`; user 1 exists and is not
yet a member. -/
def dbC7 : DB :=
  ⟨[⟨1, "u@x.com", bcrypt.hashpw "up", "member"⟩],
   [⟨2, "AI101", bcrypt.hashpw "cpw", 9, []⟩], [], [], [], [], 3⟩

/-- C7: `join_class_view` reports NotFound when no class has the given
name, InvalidCredential when the password does not verify, and otherwise
adds the caller to the class member list idempotently — under the
precondition that the caller occurs at most once already (in particular
when already a member), the call succeeds and leaves exactly one
occurrence. -/
theorem claim7_join_class_checks_and_idempotence (db : DB) (userId : Nat)
    (className password : String) :
    (ClassModel.get_by_name db className = none →
      join_class_view db userId className password = (.notFound, db)) ∧
    (∀ c, ClassModel.get_by_name db className = some c →
      ClassModel.verify_password db className password = false →
      join_class_view db userId className password = (.invalidCredential, db)) ∧
    (∀ c u, ClassModel.get_by_name db className = some c →
      db.classes.find? (fun x => x.id == c.id) = some c →
      ClassModel.verify_password db className password = true →
      UserModel.get_by_id db userId = some u →
      c.members.count userId ≤ 1 →
      (join_class_view db userId className password).1 = .ok ∧
      ((join_class_view db userId className password).2.classes.find?
        (fun x => x.id == c.id)).map (fun x => x.members.count userId) = some 1) := by
  refine ⟨?_, ?_, ?_⟩
  · intro h
    simp [join_class_view, h]
  · intro c hc hv
    simp [join_class_view, hc, hv]
  · intro c u hc hcid hv hu hcount
    by_cases hm : userId ∈ c.members
    · have hstep : join_class_view db userId className password = (.ok, db) := by
        unfold join_class_view ClassModel.add_leader
        rw [hc]
        simp [hv, hcid, hu, hm]
      rw [hstep]
      refine ⟨rfl, ?_⟩
      show ((db.classes.find? (fun x => x.id == c.id)).map
        (fun x => x.members.count userId)) = some 1
      rw [hcid]
      have h1 : 0 < c.members.count userId := List.count_pos_iff.mpr hm
      show some (c.members.count userId) = some 1
      exact congrArg some (by omega)
    · have hstep : join_class_view db userId className password =
          (.ok, { db with classes := updateFirst (fun x => x.id == c.id) (fun x => { x with members := x.members ++ [userId] }) db.classes }) := by
        unfold join_class_view ClassModel.add_leader
        rw [hc]
        simp [hv, hcid, hu, hm]
      rw [hstep]
      refine ⟨rfl, ?_⟩
      show ((updateFirst (fun x => x.id == c.id)
        (fun x => { x with members := x.members ++ [userId] }) db.classes).find?
          (fun x => x.id == c.id)).map (fun x => x.members.count userId) = some 1
      rw [updateFirst_find?_of_pres (fun x => x.id == c.id)
        (fun x => { x with members := x.members ++ [userId] }) (fun a ha => ha) db.classes]
      rw [hcid]
      have hcz : c.members.count userId = 0 := List.count_eq_zero.mpr hm
      simp [List.count_append, hcz]

/-- Witness for C7: user 1 joins class 2 with the right password on the
C7 fixture; one membership entry results. -/
theorem claim7_witness :
    (join_class_view dbC7 1 "AI101" "cpw").1 = .ok ∧
    ((join_class_view dbC7 1 "AI101" "cpw").2.classes.find?
      (fun x => x.id == 2)).map (fun x => x.members.count 1) = some 1 := by
  have h := (claim7_join_class_checks_and_idempotence dbC7 1 "AI101" "cpw").2.2
    ⟨2, "AI101", bcrypt.hashpw "cpw", 9, []⟩
    ⟨1, "u@x.com", bcrypt.hashpw "up", "member"⟩
    (by decide) (by decide) (by decide) (by decide) (by decide)
  exact h

/-! ### Claim C8 -/

/-- Iterated `TaskModel.add_division`: a sequence of (member, part)
assignments applied to the database, as successive `divide_task`
saves produce. -/
def applyDivisionSeq (db : DB) (taskId : Nat) (calls : List (Nat × String)) : DB :=
  calls.foldl (fun acc c => (TaskModel.add_division acc taskId c.1 c.2).2) db

/-- The same assignment sequence at the division-list level. -/
def applyDivisionCalls (calls : List (Nat × String)) (divs : List Division) :
    List Division :=
  calls.foldl (fun acc c => addDivisionList acc c.1 c.2) divs

/-- Specification helper: the part description of the most recent
assignment to member `m` within a call sequence, if any. -/
def lastAssign : List (Nat × String) → Nat → Option String
  | [], _ => none
  | c :: cs, m =>
    match lastAssign cs m with
    | some d => some d
    | none => if c.1 = m then some c.2 else none

/-- Specification helper: the divisions recorded for member `m`. -/
def divisionsFor (divs : List Division) (m : Nat) : List Division :=
  divs.filter (fun d => d.memberId == m)

theorem divisionsFor_addDivisionList (divs : List Division) (mid : Nat)
    (desc : String) (m : Nat) :
    divisionsFor (addDivisionList divs mid desc) m =
      if m = mid then [⟨mid, desc⟩] else divisionsFor divs m := by
  unfold addDivisionList divisionsFor
  rw [List.filter_append, List.filter_filter]
  by_cases h : m = mid
  · subst h
    have h1 : ∀ d : Division, ((d.memberId == m) && (d.memberId != m)) = false := by
      intro d; by_cases hh : d.memberId = m <;> simp [hh]
    simp [h1]
  · have h2 : ∀ d : Division, ((d.memberId == m) && (d.memberId != mid)) =
        (d.memberId == m) := by
      intro d; by_cases hh : d.memberId = m <;> simp [hh, h]
    have h3 : (mid == m) = false := by
      cases hq : (mid == m) with
      | false => rfl
      | true => exact absurd (eq_of_beq hq) (Ne.symm h)
    simp only [h2, if_neg h]
    simp [h3]

theorem add_division_get (db : DB) (taskId mid : Nat) (desc : String) (t : TaskDoc)
    (ht : TaskModel.get_by_id db taskId = some t) :
    TaskModel.get_by_id (TaskModel.add_division db taskId mid desc).2 taskId =
      some { t with divisions := addDivisionList t.divisions mid desc } := by
  unfold TaskModel.add_division
  rw [ht]
  show (updateFirst (fun x => x.id == taskId)
    (fun x => { x with divisions := addDivisionList x.divisions mid desc })
      db.tasks).find? (fun x => x.id == taskId) = _
  rw [updateFirst_find?_of_pres (fun x => x.id == taskId)
    (fun x => { x with divisions := addDivisionList x.divisions mid desc })
    (fun a ha => ha) db.tasks]
  rw [show db.tasks.find? (fun x => x.id == taskId) = some t from ht]
  rfl

theorem applyDivisionSeq_get (taskId : Nat) :
    ∀ (calls : List (Nat × String)) (db : DB) (t : TaskDoc),
      TaskModel.get_by_id db taskId = some t →
      TaskModel.get_by_id (applyDivisionSeq db taskId calls) taskId =
        some { t with divisions := applyDivisionCalls calls t.divisions } := by
  intro calls
  induction calls with
  | nil =>
    intro db t ht
    simpa [applyDivisionSeq, applyDivisionCalls] using ht
  | cons c cs ih =>
    intro db t ht
    have h1 := add_division_get db taskId c.1 c.2 t ht
    have h2 := ih (TaskModel.add_division db taskId c.1 c.2).2 _ h1
    simpa [applyDivisionSeq, applyDivisionCalls] using h2

theorem divisionsFor_applyDivisionCalls (m : Nat) :
    ∀ (calls : List (Nat × String)) (divs : List Division),
      divisionsFor (applyDivisionCalls calls divs) m =
        (lastAssign calls m).elim (divisionsFor divs m) (fun d => [⟨m, d⟩]) := by
  intro calls
  induction calls with
  | nil => intro divs; rfl
  | cons c cs ih =>
    intro divs
    rw [show applyDivisionCalls (c :: cs) divs =
      applyDivisionCalls cs (addDivisionList divs c.1 c.2) from rfl]
    rw [ih (addDivisionList divs c.1 c.2)]
    cases hl : lastAssign cs m with
    | some d => simp [lastAssign, hl]
    | none =>
      simp only [lastAssign, hl]
      rw [divisionsFor_addDivisionList]
      by_cases hc : c.1 = m
      · subst hc
        simp
      · have hmc : ¬(m = c.1) := fun hh => hc hh.symm
        simp [hc, hmc]

/-- C8: `TaskModel.add_division` overwrites — one assignment replaces any
existing division of the same member on the task, and after any sequence
of assignments the task holds, per member, at most one division, carrying
the most recently assigned description (for a task that starts with no
divisions, exactly the last assignment to that member or nothing). -/
theorem claim8_assign_division_overwrites (db : DB) (taskId : Nat)
    (calls : List (Nat × String)) (m : Nat) :
    (∀ divs mid desc,
      divisionsFor (addDivisionList divs mid desc) m =
        if m = mid then [⟨mid, desc⟩] else divisionsFor divs m) ∧
    (∀ t, TaskModel.get_by_id db taskId = some t →
      (TaskModel.get_by_id (applyDivisionSeq db taskId calls) taskId).map
          (fun x => divisionsFor x.divisions m) =
        some ((lastAssign calls m).elim (divisionsFor t.divisions m)
          (fun d => [⟨m, d⟩]))) ∧
    (∀ t, TaskModel.get_by_id db taskId = some t → t.divisions = [] →
      ∃ x, TaskModel.get_by_id (applyDivisionSeq db taskId calls) taskId = some x ∧
        (divisionsFor x.divisions m).length ≤ 1 ∧
        (divisionsFor x.divisions m).map (fun d => d.partDescription) =
          (lastAssign calls m).toList) := by
  refine ⟨?_, ?_, ?_⟩
  · intro divs mid desc
    exact divisionsFor_addDivisionList divs mid desc m
  · intro t ht
    rw [applyDivisionSeq_get taskId calls db t ht]
    show some (divisionsFor (applyDivisionCalls calls t.divisions) m) = _
    rw [divisionsFor_applyDivisionCalls m calls t.divisions]
  · intro t ht hdiv
    refine ⟨{ t with divisions := applyDivisionCalls calls t.divisions },
      applyDivisionSeq_get taskId calls db t ht, ?_, ?_⟩
    · show (divisionsFor (applyDivisionCalls calls t.divisions) m).length ≤ 1
      rw [divisionsFor_applyDivisionCalls m calls t.divisions, hdiv]
      cases lastAssign calls m <;> simp [divisionsFor]
    · show (divisionsFor (applyDivisionCalls calls t.divisions) m).map
        (fun d => d.partDescription) = _
      rw [divisionsFor_applyDivisionCalls m calls t.divisions, hdiv]
      cases lastAssign calls m <;> simp [divisionsFor]

/-- Fixture for C8: a bare task 7 with no divisions. -/
def dbC8 : DB := ⟨[], [], [], [⟨7, 2, 9, "T8", []⟩], [], [], 8⟩

/-- Witness for C8: two successive assignments to member 1 leave one
division holding the second description. -/
theorem claim8_witness :
    (TaskModel.get_by_id (applyDivisionSeq dbC8 7 [(1, "first"), (1, "second")]) 7).map
      (fun x => divisionsFor x.divisions 1) = some [⟨1, "second"⟩] := by
  have h := (claim8_assign_division_overwrites dbC8 7 [(1, "first"), (1, "second")] 1).2.1
    ⟨7, 2, 9, "T8", []⟩ (by decide)
  rw [h]
  exact congrArg some (by decide)

/-! ### Claim C3 -/

/-- The (task, member) key predicate of
`SubmissionModel.get_by_task_and_member`. -/
def subPair (taskId memberId : Nat) : SubmissionDoc → Bool :=
  fun s => s.taskId == taskId && s.memberId == memberId

theorem submit_task_success_cases (db : DB) (userId : Nat) (userEmail : String)
    (taskId : Nat) (textAnswer relativePath : String) (task : TaskDoc) (grp : GroupDoc)
    (htask : TaskModel.get_by_id db taskId = some task)
    (hgrp : (GroupModel.get_by_member db userId).find?
      (fun g => g.classId == task.classId) = some grp) :
    (SubmissionModel.get_by_task_and_member db taskId userId = none →
      submit_task db userId userEmail taskId textAnswer (some relativePath) =
        (.created, { db with submissions := db.submissions ++ [⟨taskId, grp.id, userId, textAnswer, "/media/" ++ relativePath⟩] })) ∧
    (∀ s0, SubmissionModel.get_by_task_and_member db taskId userId = some s0 →
      submit_task db userId userEmail taskId textAnswer (some relativePath) =
        (.updated, { db with submissions := updateFirst (subPair taskId userId) (fun s => { s with textAnswer := textAnswer, pdfPath := "/media/" ++ relativePath }) db.submissions })) := by
  constructor
  · intro hex
    simp only [submit_task, htask, hgrp, hex, SubmissionModel.create]
  · intro s0 hex
    simp only [submit_task, htask, hgrp, hex]
    rfl

/-- C3: each `submit_task` call preserves, for every (task, member) pair,
the at-most-one-Submission invariant; and two successful submits by the
same member for the same task resolve to an in-place update — afterwards
exactly one Submission exists for the pair and its text is the second
call's text. -/
theorem claim3_one_submission_per_pair (db : DB) (userId taskId : Nat) :
    (∀ (userEmail textAnswer : String) (pdfResult : Option String) (tid mid : Nat),
      db.submissions.countP (subPair tid mid) ≤ 1 →
      ((submit_task db userId userEmail taskId textAnswer pdfResult).2).submissions.countP
        (subPair tid mid) ≤ 1) ∧
    (∀ (task : TaskDoc) (grp : GroupDoc) (e1 e2 t1 t2 p1 p2 : String),
      TaskModel.get_by_id db taskId = some task →
      (GroupModel.get_by_member db userId).find? (fun g => g.classId == task.classId) =
        some grp →
      db.submissions.countP (subPair taskId userId) ≤ 1 →
      (submit_task (submit_task db userId e1 taskId t1 (some p1)).2 userId e2 taskId t2
        (some p2)).1 = .updated ∧
      ((submit_task (submit_task db userId e1 taskId t1 (some p1)).2 userId e2 taskId t2
        (some p2)).2).submissions.countP (subPair taskId userId) = 1 ∧
      (SubmissionModel.get_by_task_and_member
        ((submit_task (submit_task db userId e1 taskId t1 (some p1)).2 userId e2 taskId t2
          (some p2)).2) taskId userId).map (fun s => s.textAnswer) = some t2) := by
  constructor
  · intro userEmail textAnswer pdfResult tid mid hcount
    cases htask : TaskModel.get_by_id db taskId with
    | none =>
      simp only [submit_task, htask]
      exact hcount
    | some task =>
      cases hgrp : (GroupModel.get_by_member db userId).find?
          (fun g => g.classId == task.classId) with
      | none =>
        simp only [submit_task, htask, hgrp]
        exact hcount
      | some grp =>
        cases pdfResult with
        | none =>
          simp only [submit_task, htask, hgrp]
          exact hcount
        | some rp =>
          cases hex : SubmissionModel.get_by_task_and_member db taskId userId with
          | some s0 =>
            simp only [submit_task, htask, hgrp, hex]
            show (updateFirst (fun s => s.taskId == taskId && s.memberId == userId)
              (fun s => { s with textAnswer := textAnswer, pdfPath := "/media/" ++ rp })
              db.submissions).countP (subPair tid mid) ≤ 1
            rw [updateFirst_countP (fun s => s.taskId == taskId && s.memberId == userId)
              (subPair tid mid)
              (fun s => { s with textAnswer := textAnswer, pdfPath := "/media/" ++ rp })
              (fun s => rfl)]
            exact hcount
          | none =>
            simp only [submit_task, htask, hgrp, hex]
            show (db.submissions ++
              [SubmissionDoc.mk taskId grp.id userId textAnswer ("/media/" ++ rp)]).countP
                (subPair tid mid) ≤ 1
            rw [List.countP_append]
            by_cases hp : subPair tid mid
                (SubmissionDoc.mk taskId grp.id userId textAnswer ("/media/" ++ rp)) = true
            · obtain ⟨h1, h2⟩ : taskId = tid ∧ userId = mid := by
                simpa [subPair] using hp
              subst h1
              subst h2
              have hz : db.submissions.countP (subPair taskId userId) = 0 :=
                countP_eq_zero_of_find?_eq_none (p := subPair taskId userId) hex
              rw [hz]
              have hone : List.countP (subPair taskId userId)
                  [SubmissionDoc.mk taskId grp.id userId textAnswer ("/media/" ++ rp)] ≤ 1 := by
                simp only [List.countP_cons, List.countP_nil]
                split <;> simp
              omega
            · have hzero : List.countP (subPair tid mid)
                  [SubmissionDoc.mk taskId grp.id userId textAnswer ("/media/" ++ rp)] = 0 := by
                simp [List.countP_cons, hp]
              omega
  · intro task grp e1 e2 t1 t2 p1 p2 htask hgrp hcount
    have H1 := submit_task_success_cases db userId e1 taskId t1 p1 task grp htask hgrp
    cases hex : SubmissionModel.get_by_task_and_member db taskId userId with
    | none =>
      have h1 := H1.1 hex
      have htask1 : TaskModel.get_by_id
          (submit_task db userId e1 taskId t1 (some p1)).2 taskId = some task := by
        rw [h1]; exact htask
      have hgrp1 : (GroupModel.get_by_member
          (submit_task db userId e1 taskId t1 (some p1)).2 userId).find?
            (fun g => g.classId == task.classId) = some grp := by
        rw [h1]; exact hgrp
      have hex1 : SubmissionModel.get_by_task_and_member
          (submit_task db userId e1 taskId t1 (some p1)).2 taskId userId =
          some (SubmissionDoc.mk taskId grp.id userId t1 ("/media/" ++ p1)) := by
        rw [h1]
        show (db.submissions ++
          [SubmissionDoc.mk taskId grp.id userId t1 ("/media/" ++ p1)]).find?
            (fun s => s.taskId == taskId && s.memberId == userId) = _
        rw [List.find?_append, show db.submissions.find?
          (fun s => s.taskId == taskId && s.memberId == userId) = none from hex]
        simp
      have h2 := (submit_task_success_cases
        (submit_task db userId e1 taskId t1 (some p1)).2 userId e2 taskId t2 p2 task grp
        htask1 hgrp1).2 _ hex1
      rw [h2]
      refine ⟨rfl, ?_, ?_⟩
      · show (updateFirst (subPair taskId userId)
          (fun s => { s with textAnswer := t2, pdfPath := "/media/" ++ p2 })
          ((submit_task db userId e1 taskId t1 (some p1)).2).submissions).countP
            (subPair taskId userId) = 1
        rw [updateFirst_countP (subPair taskId userId) (subPair taskId userId)
          (fun s => { s with textAnswer := t2, pdfPath := "/media/" ++ p2 })
          (fun s => rfl)]
        rw [h1]
        show (db.submissions ++
          [SubmissionDoc.mk taskId grp.id userId t1 ("/media/" ++ p1)]).countP
            (subPair taskId userId) = 1
        have hz : db.submissions.countP (subPair taskId userId) = 0 :=
          countP_eq_zero_of_find?_eq_none (p := subPair taskId userId) hex
        rw [List.countP_append, hz]
        simp [subPair, List.countP_cons]
      · show ((updateFirst (subPair taskId userId)
          (fun s => { s with textAnswer := t2, pdfPath := "/media/" ++ p2 })
          ((submit_task db userId e1 taskId t1 (some p1)).2).submissions).find?
            (subPair taskId userId)).map (fun s => s.textAnswer) = some t2
        rw [updateFirst_find?_of_pres (subPair taskId userId)
          (fun s => { s with textAnswer := t2, pdfPath := "/media/" ++ p2 })
          (fun a ha => ha)
          ((submit_task db userId e1 taskId t1 (some p1)).2).submissions]
        rw [show ((submit_task db userId e1 taskId t1 (some p1)).2).submissions.find?
          (subPair taskId userId) =
          some (SubmissionDoc.mk taskId grp.id userId t1 ("/media/" ++ p1)) from hex1]
        rfl
    | some s0 =>
      have h1 := H1.2 s0 hex
      have htask1 : TaskModel.get_by_id
          (submit_task db userId e1 taskId t1 (some p1)).2 taskId = some task := by
        rw [h1]; exact htask
      have hgrp1 : (GroupModel.get_by_member
          (submit_task db userId e1 taskId t1 (some p1)).2 userId).find?
            (fun g => g.classId == task.classId) = some grp := by
        rw [h1]; exact hgrp
      have hex1 : SubmissionModel.get_by_task_and_member
          (submit_task db userId e1 taskId t1 (some p1)).2 taskId userId =
          some { s0 with textAnswer := t1, pdfPath := "/media/" ++ p1 } := by
        rw [h1]
        show (updateFirst (subPair taskId userId)
          (fun s => { s with textAnswer := t1, pdfPath := "/media/" ++ p1 })
          db.submissions).find? (subPair taskId userId) = _
        rw [updateFirst_find?_of_pres (subPair taskId userId)
          (fun s => { s with textAnswer := t1, pdfPath := "/media/" ++ p1 })
          (fun a ha => ha) db.submissions]
        rw [show db.submissions.find? (subPair taskId userId) = some s0 from hex]
        rfl
      have h2 := (submit_task_success_cases
        (submit_task db userId e1 taskId t1 (some p1)).2 userId e2 taskId t2 p2 task grp
        htask1 hgrp1).2 _ hex1
      rw [h2]
      refine ⟨rfl, ?_, ?_⟩
      · show (updateFirst (subPair taskId userId)
          (fun s => { s with textAnswer := t2, pdfPath := "/media/" ++ p2 })
          ((submit_task db userId e1 taskId t1 (some p1)).2).submissions).countP
            (subPair taskId userId) = 1
        rw [updateFirst_countP (subPair taskId userId) (subPair taskId userId)
          (fun s => { s with textAnswer := t2, pdfPath := "/media/" ++ p2 })
          (fun s => rfl)]
        rw [h1]
        show (updateFirst (subPair taskId userId)
          (fun s => { s with textAnswer := t1, pdfPath := "/media/" ++ p1 })
          db.submissions).countP (subPair taskId userId) = 1
        rw [updateFirst_countP (subPair taskId userId) (subPair taskId userId)
          (fun s => { s with textAnswer := t1, pdfPath := "/media/" ++ p1 })
          (fun s => rfl)]
        have hge : 1 ≤ db.submissions.countP (subPair taskId userId) :=
          one_le_countP_of_find?_eq_some (p := subPair taskId userId) hex
        omega
      · show ((updateFirst (subPair taskId userId)
          (fun s => { s with textAnswer := t2, pdfPath := "/media/" ++ p2 })
          ((submit_task db userId e1 taskId t1 (some p1)).2).submissions).find?
            (subPair taskId userId)).map (fun s => s.textAnswer) = some t2
        rw [updateFirst_find?_of_pres (subPair taskId userId)
          (fun s => { s with textAnswer := t2, pdfPath := "/media/" ++ p2 })
          (fun a ha => ha)
          ((submit_task db userId e1 taskId t1 (some p1)).2).submissions]
        rw [show ((submit_task db userId e1 taskId t1 (some p1)).2).submissions.find?
          (subPair taskId userId) =
          some { s0 with textAnswer := t1, pdfPath := "/media/" ++ p1 } from hex1]
        rfl

/-- Fixture for C3: user 1 belongs to group 3 of class 2; task 5 is in
class 2; no submissions yet. -/
def dbC3 : DB :=
  ⟨[⟨1, "e@x.com", bcrypt.hashpw "ep", "member"⟩],
   [⟨2, "C2", bcrypt.hashpw "c2", 9, [1]⟩],
   [⟨3, "G3", bcrypt.hashpw "g3", 2, 1, [1], []⟩],
   [⟨5, 2, 9, "T", []⟩], [], [], 6⟩

/-- Witness for C3: two submits for the same (task, member) on the C3
fixture leave one record holding the second text. -/
theorem claim3_witness :
    (submit_task (submit_task dbC3 1 "e@x.com" 5 "v1" (some "a1.pdf")).2 1 "e@x.com" 5 "v2"
      (some "a2.pdf")).1 = .updated ∧
    (SubmissionModel.get_by_task_and_member
      (submit_task (submit_task dbC3 1 "e@x.com" 5 "v1" (some "a1.pdf")).2 1 "e@x.com" 5 "v2"
        (some "a2.pdf")).2 5 1).map (fun s => s.textAnswer) = some "v2" := by
  have h := (claim3_one_submission_per_pair dbC3 1 5).2
    ⟨5, 2, 9, "T", []⟩ ⟨3, "G3", bcrypt.hashpw "g3", 2, 1, [1], []⟩
    "e@x.com" "e@x.com" "v1" "v2" "a1.pdf" "a2.pdf" (by decide) (by decide) (by decide)
  exact ⟨h.1, h.2.2⟩

/-! ### Claim C5 -/

/-- The (task, group) key predicate of
`CompiledSubmissionModel.get_by_task_and_group`. -/
def cpdPair (taskId groupId : Nat) : CompiledSubmissionDoc → Bool :=
  fun c => c.taskId == taskId && c.groupId == groupId

theorem compile_submission_success_cases (db : DB) (userId groupId taskId : Nat)
    (text relativePath : String) (g : GroupDoc) (task : TaskDoc)
    (hg : GroupModel.get_by_id db groupId = some g)
    (hl : g.leader = userId)
    (htask : TaskModel.get_by_id db taskId = some task)
    (htext : (pyStrip text == "") = false) :
    (CompiledSubmissionModel.get_by_task_and_group db taskId groupId = none →
      compile_submission db userId groupId taskId text (some relativePath) =
        (.created, { db with compiledSubmissions := db.compiledSubmissions ++ [CompiledSubmissionDoc.mk groupId taskId ("/media/" ++ relativePath)] })) ∧
    (∀ c0, CompiledSubmissionModel.get_by_task_and_group db taskId groupId = some c0 →
      compile_submission db userId groupId taskId text (some relativePath) =
        (.updated, { db with compiledSubmissions := updateFirst (cpdPair taskId groupId) (fun c => { c with compiledPdfPath := "/media/" ++ relativePath }) db.compiledSubmissions })) := by
  constructor
  · intro hex
    simp only [compile_submission, hg, htask, hex, htext, hl]
    simp [CompiledSubmissionModel.create]
  · intro c0 hex
    simp only [compile_submission, hg, htask, hex, htext, hl]
    simp
    rfl

/-- C5: `compile_submission` by the group's leader needs no prior member
Submission — on a state with no CompiledSubmission for the pair (and
regardless of the submission collection, which it never reads) it creates
one from the curated text alone — and a second compile overwrites the
artifact reference in place, so the pair resolves to exactly one record
carrying the latest reference. -/
theorem claim5_compile_without_submissions_and_overwrite (db : DB)
    (userId groupId taskId : Nat) :
    (∀ (g : GroupDoc) (task : TaskDoc) (text p : String),
      GroupModel.get_by_id db groupId = some g → g.leader = userId →
      TaskModel.get_by_id db taskId = some task →
      (pyStrip text == "") = false →
      CompiledSubmissionModel.get_by_task_and_group db taskId groupId = none →
      (compile_submission db userId groupId taskId text (some p)).1 = .created ∧
      CompiledSubmissionModel.get_by_task_and_group
        (compile_submission db userId groupId taskId text (some p)).2 taskId groupId =
        some (CompiledSubmissionDoc.mk groupId taskId ("/media/" ++ p))) ∧
    (∀ (g : GroupDoc) (task : TaskDoc) (text1 text2 p1 p2 : String),
      GroupModel.get_by_id db groupId = some g → g.leader = userId →
      TaskModel.get_by_id db taskId = some task →
      (pyStrip text1 == "") = false → (pyStrip text2 == "") = false →
      db.compiledSubmissions.countP (cpdPair taskId groupId) ≤ 1 →
      (compile_submission (compile_submission db userId groupId taskId text1 (some p1)).2
        userId groupId taskId text2 (some p2)).1 = .updated ∧
      ((compile_submission (compile_submission db userId groupId taskId text1 (some p1)).2
        userId groupId taskId text2 (some p2)).2).compiledSubmissions.countP
          (cpdPair taskId groupId) = 1 ∧
      (CompiledSubmissionModel.get_by_task_and_group
        ((compile_submission (compile_submission db userId groupId taskId text1 (some p1)).2
          userId groupId taskId text2 (some p2)).2) taskId groupId).map
            (fun c => c.compiledPdfPath) = some ("/media/" ++ p2)) := by
  constructor
  · intro g task text p hg hl htask htext hex
    have h1 := (compile_submission_success_cases db userId groupId taskId text p g task
      hg hl htask htext).1 hex
    rw [h1]
    refine ⟨rfl, ?_⟩
    show (db.compiledSubmissions ++
      [CompiledSubmissionDoc.mk groupId taskId ("/media/" ++ p)]).find?
        (fun c => c.taskId == taskId && c.groupId == groupId) = _
    rw [List.find?_append, show db.compiledSubmissions.find?
      (fun c => c.taskId == taskId && c.groupId == groupId) = none from hex]
    simp
  · intro g task text1 text2 p1 p2 hg hl htask htext1 htext2 hcount
    have H1 := compile_submission_success_cases db userId groupId taskId text1 p1 g task
      hg hl htask htext1
    cases hex : CompiledSubmissionModel.get_by_task_and_group db taskId groupId with
    | none =>
      have h1 := H1.1 hex
      have hg1 : GroupModel.get_by_id
          (compile_submission db userId groupId taskId text1 (some p1)).2 groupId =
          some g := by
        rw [h1]; exact hg
      have htask1 : TaskModel.get_by_id
          (compile_submission db userId groupId taskId text1 (some p1)).2 taskId =
          some task := by
        rw [h1]; exact htask
      have hex1 : CompiledSubmissionModel.get_by_task_and_group
          (compile_submission db userId groupId taskId text1 (some p1)).2 taskId groupId =
          some (CompiledSubmissionDoc.mk groupId taskId ("/media/" ++ p1)) := by
        rw [h1]
        show (db.compiledSubmissions ++
          [CompiledSubmissionDoc.mk groupId taskId ("/media/" ++ p1)]).find?
            (fun c => c.taskId == taskId && c.groupId == groupId) = _
        rw [List.find?_append, show db.compiledSubmissions.find?
          (fun c => c.taskId == taskId && c.groupId == groupId) = none from hex]
        simp
      have h2 := (compile_submission_success_cases
        (compile_submission db userId groupId taskId text1 (some p1)).2 userId groupId
        taskId text2 p2 g task hg1 hl htask1 htext2).2 _ hex1
      rw [h2]
      refine ⟨rfl, ?_, ?_⟩
      · show (updateFirst (cpdPair taskId groupId)
          (fun c => { c with compiledPdfPath := "/media/" ++ p2 })
          ((compile_submission db userId groupId taskId text1 (some p1)).2).compiledSubmissions).countP
            (cpdPair taskId groupId) = 1
        rw [updateFirst_countP (cpdPair taskId groupId) (cpdPair taskId groupId)
          (fun c => { c with compiledPdfPath := "/media/" ++ p2 }) (fun c => rfl)]
        rw [h1]
        show (db.compiledSubmissions ++
          [CompiledSubmissionDoc.mk groupId taskId ("/media/" ++ p1)]).countP
            (cpdPair taskId groupId) = 1
        have hz : db.compiledSubmissions.countP (cpdPair taskId groupId) = 0 :=
          countP_eq_zero_of_find?_eq_none (p := cpdPair taskId groupId) hex
        rw [List.countP_append, hz]
        simp [cpdPair, List.countP_cons]
      · show ((updateFirst (cpdPair taskId groupId)
          (fun c => { c with compiledPdfPath := "/media/" ++ p2 })
          ((compile_submission db userId groupId taskId text1 (some p1)).2).compiledSubmissions).find?
            (cpdPair taskId groupId)).map (fun c => c.compiledPdfPath) =
          some ("/media/" ++ p2)
        rw [updateFirst_find?_of_pres (cpdPair taskId groupId)
          (fun c => { c with compiledPdfPath := "/media/" ++ p2 }) (fun a ha => ha)
          ((compile_submission db userId groupId taskId text1 (some p1)).2).compiledSubmissions]
        rw [show ((compile_submission db userId groupId taskId text1 (some p1)).2).compiledSubmissions.find?
          (cpdPair taskId groupId) =
          some (CompiledSubmissionDoc.mk groupId taskId ("/media/" ++ p1)) from hex1]
        rfl
    | some c0 =>
      have h1 := H1.2 c0 hex
      have hg1 : GroupModel.get_by_id
          (compile_submission db userId groupId taskId text1 (some p1)).2 groupId =
          some g := by
        rw [h1]; exact hg
      have htask1 : TaskModel.get_by_id
          (compile_submission db userId groupId taskId text1 (some p1)).2 taskId =
          some task := by
        rw [h1]; exact htask
      have hex1 : CompiledSubmissionModel.get_by_task_and_group
          (compile_submission db userId groupId taskId text1 (some p1)).2 taskId groupId =
          some { c0 with compiledPdfPath := "/media/" ++ p1 } := by
        rw [h1]
        show (updateFirst (cpdPair taskId groupId)
          (fun c => { c with compiledPdfPath := "/media/" ++ p1 })
          db.compiledSubmissions).find? (cpdPair taskId groupId) = _
        rw [updateFirst_find?_of_pres (cpdPair taskId groupId)
          (fun c => { c with compiledPdfPath := "/media/" ++ p1 }) (fun a ha => ha)
          db.compiledSubmissions]
        rw [show db.compiledSubmissions.find? (cpdPair taskId groupId) = some c0 from hex]
        rfl
      have h2 := (compile_submission_success_cases
        (compile_submission db userId groupId taskId text1 (some p1)).2 userId groupId
        taskId text2 p2 g task hg1 hl htask1 htext2).2 _ hex1
      rw [h2]
      refine ⟨rfl, ?_, ?_⟩
      · show (updateFirst (cpdPair taskId groupId)
          (fun c => { c with compiledPdfPath := "/media/" ++ p2 })
          ((compile_submission db userId groupId taskId text1 (some p1)).2).compiledSubmissions).countP
            (cpdPair taskId groupId) = 1
        rw [updateFirst_countP (cpdPair taskId groupId) (cpdPair taskId groupId)
          (fun c => { c with compiledPdfPath := "/media/" ++ p2 }) (fun c => rfl)]
        rw [h1]
        show (updateFirst (cpdPair taskId groupId)
          (fun c => { c with compiledPdfPath := "/media/" ++ p1 })
          db.compiledSubmissions).countP (cpdPair taskId groupId) = 1
        rw [updateFirst_countP (cpdPair taskId groupId) (cpdPair taskId groupId)
          (fun c => { c with compiledPdfPath := "/media/" ++ p1 }) (fun c => rfl)]
        have hge : 1 ≤ db.compiledSubmissions.countP (cpdPair taskId groupId) :=
          one_le_countP_of_find?_eq_some (p := cpdPair taskId groupId) hex
        omega
      · show ((updateFirst (cpdPair taskId groupId)
          (fun c => { c with compiledPdfPath := "/media/" ++ p2 })
          ((compile_submission db userId groupId taskId text1 (some p1)).2).compiledSubmissions).find?
            (cpdPair taskId groupId)).map (fun c => c.compiledPdfPath) =
          some ("/media/" ++ p2)
        rw [updateFirst_find?_of_pres (cpdPair taskId groupId)
          (fun c => { c with compiledPdfPath := "/media/" ++ p2 }) (fun a ha => ha)
          ((compile_submission db userId groupId taskId text1 (some p1)).2).compiledSubmissions]
        rw [show ((compile_submission db userId groupId taskId text1 (some p1)).2).compiledSubmissions.find?
          (cpdPair taskId groupId) =
          some { c0 with compiledPdfPath := "/media/" ++ p1 } from hex1]
        rfl

/-- Fixture for C5: user 1 leads group 3 of class 2; task 5 exists; no
submissions and no compiled submissions at all. -/
def dbC5 : DB :=
  ⟨[⟨1, "lead5@x.com", bcrypt.hashpw "l5", "leader"⟩],
   [⟨2, "C5", bcrypt.hashpw "c5", 9, [1]⟩],
   [⟨3, "G5", bcrypt.hashpw "g5", 2, 1, [1], []⟩],
   [⟨5, 2, 9, "T5", []⟩], [], [], 6⟩

/-- Witness for C5: a compile with no member submissions creates the
record, and a second compile leaves one record with the latest artifact
reference. -/
theorem claim5_witness :
    (compile_submission dbC5 1 3 5 "curated v1" (some "c1.pdf")).1 = .created ∧
    (CompiledSubmissionModel.get_by_task_and_group
      (compile_submission (compile_submission dbC5 1 3 5 "curated v1" (some "c1.pdf")).2
        1 3 5 "curated v2" (some "c2.pdf")).2 5 3).map (fun c => c.compiledPdfPath) =
      some ("/media/" ++ "c2.pdf") := by
  have hA := (claim5_compile_without_submissions_and_overwrite dbC5 1 3 5).1
    ⟨3, "G5", bcrypt.hashpw "g5", 2, 1, [1], []⟩ ⟨5, 2, 9, "T5", []⟩
    "curated v1" "c1.pdf" (by decide) (by decide) (by decide) (by decide) (by decide)
  have hB := (claim5_compile_without_submissions_and_overwrite dbC5 1 3 5).2
    ⟨3, "G5", bcrypt.hashpw "g5", 2, 1, [1], []⟩ ⟨5, 2, 9, "T5", []⟩
    "curated v1" "curated v2" "c1.pdf" "c2.pdf" (by decide) (by decide) (by decide)
    (by decide) (by decide) (by decide)
  exact ⟨hA.1, hB.2.2⟩
